/-
Verification of the candlestick-data-downloader core
(`src/candlestick_downloader.py`) against its specification.

Shallow embedding conventions:
* A pandas cell is `Option Int`: `none` models a missing value (NaN/NaT);
  concrete numeric content is abstracted to integers, which suffices for the
  ordering/equality facts proved here.
* The external provider call (`yf.download`) is modelled by an input
  `fetch : Except String RawDF`: `.error e` models the provider raising an
  exception with message `e`, `.ok raw` models it returning the raw table.
* Python exceptions are modelled with `Except String`: a function whose Lean
  type is not wrapped in `Except` cannot raise to its caller.
* Filesystem effects (directory creation, CSV write) are modelled with
  explicit outcome parameters `Except String Unit` and an explicit list of
  existing directories where the claim is about on-disk effects.
-/
import Mathlib

/-- A pandas cell: a value or a missing value (NaN/NaT). -/
abbrev Cell := Option Int

/-- Embedding of Python `str.strip()`: remove leading and trailing
whitespace characters. -/
def pyStrip (s : String) : String :=
  ⟨((s.data.dropWhile Char.isWhitespace).reverse.dropWhile Char.isWhitespace).reverse⟩

/-- Embedding of Python `str.upper()`: uppercase every character. -/
def pyUpper (s : String) : String := ⟨s.data.map Char.toUpper⟩

theorem pyUpper_eq_empty_iff (s : String) : pyUpper s = "" ↔ s = "" := by
  constructor
  · intro h
    have hd : s.data.map Char.toUpper = [] := congrArg String.data h
    have : s.data = [] := List.map_eq_nil_iff.mp hd
    cases s
    simp_all
  · intro h; subst h; rfl

/-- `DownloadConfig` (src/candlestick_downloader.py:63-76): ticker plus
period/interval/auto_adjust/progress. -/
structure DownloadConfig where
  ticker : String
  period : String
  interval : String
  auto_adjust : Bool
  progress : Bool
deriving DecidableEq, Repr

/-- `DownloadConfig.__post_init__`: constructing a `DownloadConfig` strips and
uppercases the ticker, then raises `ValueError` when the result is empty.
Modelled as a smart constructor returning `Except`. -/
def DownloadConfig.make (ticker period interval : String)
    (auto_adjust progress : Bool) : Except String DownloadConfig :=
  let t := pyUpper (pyStrip ticker)
  if t = "" then .error "Ticker symbol cannot be empty"
  else .ok ⟨t, period, interval, auto_adjust, progress⟩

/-- The raw, time-indexed table returned by the provider (`yf.download`):
an index column (named `Date` or `Datetime` by the provider, but any name is
representable), index values, value-column names, and rows of cells. -/
structure RawDF where
  indexName : String
  indexVals : List Cell
  columns : List String
  rows : List (List Cell)
deriving DecidableEq, Repr

/-- pandas `DataFrame.empty`: true when either axis has length zero. -/
def RawDF.empty (df : RawDF) : Bool := df.rows.isEmpty || df.columns.isEmpty

/-- A processed (integer-indexed) pandas DataFrame: column names, the row
index labels, and rows of cells. -/
structure DataFrame where
  columns : List String
  index : List Nat
  rows : List (List Cell)
deriving DecidableEq, Repr

/-- pandas `DataFrame.empty` for a processed frame. -/
def DataFrame.emptyDF (df : DataFrame) : Bool := df.rows.isEmpty || df.columns.isEmpty

/-- `df.reset_index()` on the raw table: the time index becomes the leading
column (named after the index), and the index becomes `RangeIndex 0..n-1`. -/
def RawDF.reset_index (df : RawDF) : DataFrame :=
  { columns := df.indexName :: df.columns
  , index := List.range df.rows.length
  , rows := List.zipWith (fun i r => i :: r) df.indexVals df.rows }

/-- `df.rename(columns={'Datetime': 'Date'})`, applied only when a `Datetime`
column is present (src/candlestick_downloader.py:198-199). -/
def DataFrame.renameDatetime (df : DataFrame) : DataFrame :=
  if df.columns.contains "Datetime" then
    { df with columns := df.columns.map (fun c => if c == "Datetime" then "Date" else c) }
  else df

/-- The missing-column diagnostic (src/candlestick_downloader.py:202-205):
canonical columns absent from the frame.  Only logged, never fatal. -/
def missingCols (df : DataFrame) : List String :=
  (["Date", "Open", "High", "Low", "Close", "Volume"]).filter
    (fun c => !df.columns.contains c)

/-- Does a row contain a missing value? -/
def rowHasNaN (r : List Cell) : Bool := r.any (fun c => c.isNone)

/-- `df.dropna()`: drop every row containing a missing value; surviving rows
keep their index labels. -/
def DataFrame.dropna (df : DataFrame) : DataFrame :=
  let kept := (df.index.zip df.rows).filter (fun p => !rowHasNaN p.2)
  { df with index := kept.map (fun p => p.1), rows := kept.map (fun p => p.2) }

/-- Ascending comparison of cells, missing values last
(pandas `sort_values` default `na_position='last'`). -/
def cellLe : Cell → Cell → Bool
  | some a, some b => a ≤ b
  | some _, none => true
  | none, some _ => false
  | none, none => true

theorem cellLe_total (x y : Cell) : cellLe x y = true ∨ cellLe y x = true := by
  rcases x with _ | a <;> rcases y with _ | b <;> simp [cellLe]
  omega

theorem cellLe_trans (x y z : Cell) (hxy : cellLe x y = true)
    (hyz : cellLe y z = true) : cellLe x z = true := by
  rcases x with _ | a <;> rcases y with _ | b <;> rcases z with _ | c <;>
    simp_all [cellLe]
  omega

/-- Row ordering used by `sort_values`: compare the cells in column `j`. -/
def rowLe (j : Nat) (p q : Nat × List Cell) : Prop :=
  cellLe (p.2.getD j none) (q.2.getD j none) = true

instance (j : Nat) : DecidableRel (rowLe j) := fun p q => by
  unfold rowLe; infer_instance

instance (j : Nat) : IsTotal (Nat × List Cell) (rowLe j) where
  total _ _ := cellLe_total _ _

instance (j : Nat) : IsTrans (Nat × List Cell) (rowLe j) where
  trans _ _ _ hpq hqs := cellLe_trans _ _ _ hpq hqs

/-- `df.sort_values('Date')` (src/candlestick_downloader.py:214): stable
ascending sort by the named column; raises `KeyError` when the column is
absent.  Rows carry their index labels through the sort. -/
def DataFrame.sort_values (df : DataFrame) (col : String) :
    Except String DataFrame :=
  match df.columns.findIdx? (fun c => c == col) with
  | none => .error "KeyError"
  | some j =>
    let sorted := (df.index.zip df.rows).insertionSort (rowLe j)
    .ok { df with index := sorted.map (fun p => p.1)
                , rows := sorted.map (fun p => p.2) }

/-- `df.reset_index(drop=True)`: replace the index by `RangeIndex 0..n-1`. -/
def DataFrame.reset_index_drop (df : DataFrame) : DataFrame :=
  { df with index := List.range df.rows.length }

/-- `CandlestickDownloader._process_dataframe`
(src/candlestick_downloader.py:183-216): materialize the index as a `Date`
column, rename `Datetime` to `Date`, warn (only) about missing canonical
columns, drop NaN rows, sort ascending by `Date`, reindex from 0.  The sort
raises (`KeyError`) when no `Date` column exists, hence the `Except` type. -/
def process_dataframe (raw : RawDF) : Except String DataFrame := do
  let df := raw.reset_index
  let df := df.renameDatetime
  -- `missingCols df` is only logged (lines 202-205), never fatal
  let df := df.dropna
  let df ← df.sort_values "Date"
  .ok df.reset_index_drop

/-- `CandlestickDownloader.download_with_config`
(src/candlestick_downloader.py:142-181): run the provider call; an empty raw
response yields `None`; otherwise process the frame.  Every exception inside
the `try` block — one raised by the provider call or by processing — is caught
and converted to `None`, so the Lean return type carries no `Except`. -/
def download_with_config (_config : DownloadConfig)
    (fetch : Except String RawDF) : Option DataFrame :=
  match fetch with
  | .error _ => none
  | .ok data =>
    if data.empty then none
    else
      match process_dataframe data with
      | .error _ => none
      | .ok df => some df

/-- `CandlestickDownloader.download` (src/candlestick_downloader.py:108-140):
build a `DownloadConfig` (whose validation may raise, outside any `try`),
then delegate to `download_with_config`. -/
def CandlestickDownloader.download (ticker period interval : String)
    (auto_adjust : Bool) (fetch : Except String RawDF) :
    Except String (Option DataFrame) := do
  let config ← DownloadConfig.make ticker period interval auto_adjust false
  .ok (download_with_config config fetch)

/-- A `pathlib.Path`: absolute-path flag and normalized components (with
`.` and empty components collapsed away, as `pathlib` does).  `Path('.')` is
`⟨false, []⟩`. -/
structure PyPath where
  isAbs : Bool
  comps : List String
deriving DecidableEq, Repr

/-- `Path('.')`. -/
def PyPath.dot : PyPath := ⟨false, []⟩

/-- `p.parent`: drop the last component (`Path('.')`/`Path('/')` are their
own parent). -/
def PyPath.parent (p : PyPath) : PyPath := ⟨p.isAbs, p.comps.dropLast⟩

/-- `p / q` for a relative `q` (the `/` operator concatenates components). -/
def PyPath.join (p q : PyPath) : PyPath :=
  if q.isAbs then q else ⟨p.isAbs, p.comps ++ q.comps⟩

/-- Split a character list into the groups between `/` separators. -/
def splitSlash : List Char → List (List Char)
  | [] => [[]]
  | c :: cs =>
    if c = '/' then [] :: splitSlash cs
    else
      match splitSlash cs with
      | [] => [[c]]
      | g :: gs => (c :: g) :: gs

/-- `Path(s)` from a string: split on `/`, drop empty and `.` components. -/
def pyPathOfString (s : String) : PyPath :=
  { isAbs := match s.data with | c :: _ => c = '/' | [] => false
  , comps := ((splitSlash s.data).map (fun g => String.mk g)).filter
      (fun c => c != "" && c != ".") }

/-- The filesystem modelled as the list of directories that exist. -/
abbrev FS := List PyPath

/-- The directories `p.mkdir(parents=True, exist_ok=True)` guarantees to
exist afterwards: every nonempty prefix of `p`'s components. -/
def dirPrefixes (p : PyPath) : List PyPath :=
  (List.range p.comps.length).map (fun i => ⟨p.isAbs, p.comps.take (i + 1)⟩)

/-- `CandlestickDownloader` instance state: the configured default output
directory (src/candlestick_downloader.py:104). -/
structure CandlestickDownloader where
  default_output_dir : PyPath
deriving DecidableEq, Repr

/-- `CandlestickDownloader.__init__` (src/candlestick_downloader.py:96-106):
pick the given directory or the current working directory, then eagerly
`mkdir(parents=True, exist_ok=True)` it — with no surrounding `try`, so an
OS error raised by `mkdir` propagates to the caller.  `mkdirResult` models
the OS outcome of that call; on success the directory and its parents are
added to the filesystem. -/
def CandlestickDownloader.init (default_output_dir : Option PyPath)
    (cwd : PyPath) (mkdirResult : Except String Unit) (fs : FS) :
    Except String (CandlestickDownloader × FS) :=
  let d := default_output_dir.getD cwd
  match mkdirResult with
  | .error e => .error e
  | .ok _ => .ok (⟨d⟩, dirPrefixes d ++ fs)

/-- `CandlestickDownloader.save_to_csv` (src/candlestick_downloader.py:218-257):
refuse absent or empty frames; resolve a bare filename (parent `Path('.')`)
against the default output directory; create parent directories when asked;
write the CSV.  `mkdirResult`/`writeResult` model the OS outcomes of the
directory creation and the write; any exception among them is caught and
converted to `False`.  Returns the boolean result and the path written
(`none` when no file was written). -/
def CandlestickDownloader.save_to_csv (self : CandlestickDownloader)
    (dataframe : Option DataFrame) (filename : PyPath) (create_dir : Bool)
    (mkdirResult writeResult : Except String Unit) : Bool × Option PyPath :=
  match dataframe with
  | none => (false, none)
  | some df =>
    if df.emptyDF then (false, none)
    else
      -- `not filepath.parent` is always false: `Path` defines no falsiness,
      -- so the python condition reduces to `filepath.parent == Path('.')`
      let filepath :=
        if filename.parent = PyPath.dot then self.default_output_dir.join filename
        else filename
      match (if create_dir then mkdirResult else .ok ()) with
      | .error _ => (false, none)
      | .ok _ =>
        match writeResult with
        | .error _ => (false, none)
        | .ok _ => (true, some filepath)

/-- `CandlestickDownloader.download_and_save`
(src/candlestick_downloader.py:259-292): download; on `None` return `False`
without writing; otherwise synthesize `f"{ticker}_{period}_{interval}_{timestamp}.csv"`
when no filename was given, and save.  `timestamp` models
`datetime.now().strftime("%Y%m%d_%H%M%S")`.  (A `str`-mixin enum member
formats as its value in an f-string, so `period`/`interval` are strings.) -/
def CandlestickDownloader.download_and_save (self : CandlestickDownloader)
    (ticker : String) (filename : Option String) (period interval : String)
    (auto_adjust : Bool) (fetch : Except String RawDF) (timestamp : String)
    (mkdirResult writeResult : Except String Unit) :
    Except String (Bool × Option PyPath) :=
  match CandlestickDownloader.download ticker period interval auto_adjust fetch with
  | .error e => .error e
  | .ok none => .ok (false, none)
  | .ok (some df) =>
    let fname := match filename with
      | none => ticker ++ "_" ++ period ++ "_" ++ interval ++ "_" ++ timestamp ++ ".csv"
      | some f => f
    .ok (self.save_to_csv (some df) (pyPathOfString fname) true mkdirResult writeResult)

/-- Legacy `download_candlestick_data` (src/candlestick_downloader.py:296-318):
constructs a `CandlestickDownloader()` (default directory = cwd, whose eager
`mkdir` may itself raise) and delegates to its `download` method. -/
def download_candlestick_data (ticker period interval : String)
    (cwd : PyPath) (initMkdir : Except String Unit) (fs : FS)
    (fetch : Except String RawDF) : Except String (Option DataFrame) := do
  let _downloader ← CandlestickDownloader.init none cwd initMkdir fs
  CandlestickDownloader.download ticker period interval true fetch

/-- Legacy module-level `save_to_csv` (src/candlestick_downloader.py:321-334):
constructs a `CandlestickDownloader()` and delegates to its `save_to_csv`
method (with the default `create_dir=True`). -/
def save_to_csv (dataframe : Option DataFrame) (filename : String)
    (cwd : PyPath) (initMkdir : Except String Unit) (fs : FS)
    (mkdirResult writeResult : Except String Unit) :
    Except String (Bool × Option PyPath) := do
  let dl ← CandlestickDownloader.init none cwd initMkdir fs
  .ok (dl.1.save_to_csv dataframe (pyPathOfString filename) true mkdirResult writeResult)

/-! ### Concrete sample data used by witnesses and counterexamples -/

/-- A provider table with three dated rows, the middle one holding a NaN. -/
def sampleRaw : RawDF :=
  { indexName := "Date"
  , indexVals := [some 3, some 1, some 2]
  , columns := ["Open", "High", "Low", "Close", "Volume"]
  , rows := [[some 10, some 12, some 9, some 11, some 100],
             [some 20, some 22, none, some 21, some 200],
             [some 30, some 32, some 29, some 31, some 300]] }

/-- What normalization produces on `sampleRaw`: the NaN row dropped, the two
survivors sorted ascending by date, index reset to 0,1. -/
def sampleProcessed : DataFrame :=
  { columns := ["Date", "Open", "High", "Low", "Close", "Volume"]
  , index := [0, 1]
  , rows := [[some 2, some 30, some 32, some 29, some 31, some 300],
             [some 3, some 10, some 12, some 9, some 11, some 100]] }

/-- A provider table with zero rows (unknown ticker / empty range). -/
def emptyRaw : RawDF :=
  ⟨"Date", [], ["Open", "High", "Low", "Close", "Volume"], []⟩

/-- A non-empty provider table whose every row holds a NaN. -/
def allNaNRaw : RawDF :=
  ⟨"Date", [some 1, some 2], ["Open", "High", "Low", "Close", "Volume"],
   [[none, some 1, some 1, some 1, some 1],
    [some 2, none, some 2, some 2, some 2]]⟩

/-- A non-empty table whose materialized index column is not named `Date`
(nor `Datetime`), so the normalized frame has no `Date` column. -/
def noDateRaw : RawDF := ⟨"index", [some 0], ["Open"], [[some 1]]⟩

/-! ### Structural lemmas about normalization -/

theorem renameDatetime_index (df : DataFrame) :
    df.renameDatetime.index = df.index := by
  unfold DataFrame.renameDatetime
  split <;> rfl

theorem renameDatetime_rows (df : DataFrame) :
    df.renameDatetime.rows = df.rows := by
  unfold DataFrame.renameDatetime
  split <;> rfl

theorem dropna_columns (df : DataFrame) : df.dropna.columns = df.columns := rfl

/-- After materializing a provider-named index (`Date` or `Datetime`) and
applying the `Datetime → Date` rename, the leading column is `Date`. -/
theorem renamed_columns_head (raw : RawDF)
    (hname : raw.indexName = "Date" ∨ raw.indexName = "Datetime") :
    ∃ rest, (raw.reset_index.renameDatetime).columns = "Date" :: rest := by
  rcases hname with h | h <;>
    simp only [RawDF.reset_index, DataFrame.renameDatetime, h]
  · by_cases hc : (("Date" :: raw.columns).contains "Datetime") = true
    · rw [if_pos hc]
      exact ⟨_, rfl⟩
    · rw [if_neg hc]
      exact ⟨raw.columns, rfl⟩
  · have hc : (("Datetime" :: raw.columns).contains "Datetime") = true := by
      simp [List.contains_cons]
    rw [if_pos hc]
    exact ⟨_, rfl⟩

theorem findIdx_date_zero (rest : List String) :
    ("Date" :: rest).findIdx? (fun c => c == "Date") = some 0 := by
  simp [List.findIdx?_cons]

theorem countP_zip_snd (p : List Cell → Bool) :
    ∀ (l1 : List Nat) (l2 : List (List Cell)), l1.length = l2.length →
      (l1.zip l2).countP (fun q => p q.2) = l2.countP p
  | [], [], _ => rfl
  | [], _ :: _, h => by simp at h
  | _ :: _, [], h => by simp at h
  | a :: l1, b :: l2, h => by
    simp only [List.zip_cons_cons, List.countP_cons]
    rw [countP_zip_snd p l1 l2 (by simpa using h)]

theorem countP_not_rows (p : List Cell → Bool) (l : List (List Cell)) :
    l.countP (fun r => !p r) = l.length - l.countP p := by
  induction l with
  | nil => rfl
  | cons a l ih =>
    have hle := List.countP_le_length (p := p) (l := l)
    by_cases h : p a <;> simp [List.countP_cons, h, ih] <;> omega

/-- Full evaluation of `process_dataframe` once a `Date` column is known to
lead the materialized table: NaN rows dropped, survivors sorted by the first
column, index reset. -/
theorem process_dataframe_eq (raw : RawDF) (rest : List String)
    (hcols : (raw.reset_index.renameDatetime).columns = "Date" :: rest) :
    process_dataframe raw = .ok
      { columns := "Date" :: rest
      , index := List.range
          (((((raw.reset_index.renameDatetime.dropna).index.zip
              (raw.reset_index.renameDatetime.dropna).rows).insertionSort
                (rowLe 0)).map Prod.snd).length)
      , rows := ((((raw.reset_index.renameDatetime.dropna).index.zip
          (raw.reset_index.renameDatetime.dropna).rows).insertionSort
            (rowLe 0)).map Prod.snd) } := by
  have hc : (raw.reset_index.renameDatetime.dropna).columns.findIdx?
      (fun c => c == "Date") = some 0 := by
    rw [dropna_columns, hcols]
    exact findIdx_date_zero rest
  simp only [process_dataframe, DataFrame.sort_values, hc, dropna_columns,
    hcols, DataFrame.reset_index_drop]
  rfl

/-! ### Claim theorems -/

/-- C3: for every ticker whose trimmed form is non-empty, `DownloadConfig`
construction succeeds and stores the ticker trimmed and uppercased; for an
empty or whitespace-only ticker it raises the validation error. -/
theorem config_validation (ticker period interval : String) (aa pr : Bool) :
    (pyStrip ticker ≠ "" →
      DownloadConfig.make ticker period interval aa pr
        = .ok ⟨pyUpper (pyStrip ticker), period, interval, aa, pr⟩) ∧
    (pyStrip ticker = "" →
      DownloadConfig.make ticker period interval aa pr
        = .error "Ticker symbol cannot be empty") := by
  constructor
  · intro h
    have hu : pyUpper (pyStrip ticker) ≠ "" :=
      fun hc => h ((pyUpper_eq_empty_iff _).mp hc)
    simp [DownloadConfig.make, hu]
  · intro h
    have hu : pyUpper (pyStrip ticker) = "" := by rw [h]; rfl
    simp [DownloadConfig.make, hu]

theorem config_validation_witness :
    DownloadConfig.make " aapl " "1mo" "1d" true false
      = .ok ⟨pyUpper (pyStrip " aapl "), "1mo", "1d", true, false⟩ ∧
    DownloadConfig.make "  " "1mo" "1d" true false
      = .error "Ticker symbol cannot be empty" :=
  ⟨(config_validation " aapl " "1mo" "1d" true false).1 (by decide),
   (config_validation "  " "1mo" "1d" true false).2 (by decide)⟩

/-- C1: only the configuration-validation error (empty ticker) propagates out
of `download`; a provider exception is absorbed by `download_with_config`
(whose Lean type is exception-free) and becomes `none`; and for every valid
ticker `download` returns `.ok` whatever the fetch outcome. -/
theorem download_fail_soft (ticker period interval : String) (aa : Bool)
    (config : DownloadConfig) (fetch : Except String RawDF) (e msg : String) :
    (fetch = .error e → download_with_config config fetch = none) ∧
    (CandlestickDownloader.download ticker period interval aa fetch
        = .error msg →
      msg = "Ticker symbol cannot be empty" ∧ pyUpper (pyStrip ticker) = "") ∧
    (pyUpper (pyStrip ticker) ≠ "" →
      CandlestickDownloader.download ticker period interval aa fetch
        = .ok (download_with_config
            ⟨pyUpper (pyStrip ticker), period, interval, aa, false⟩ fetch)) := by
  have hok : pyUpper (pyStrip ticker) ≠ "" →
      CandlestickDownloader.download ticker period interval aa fetch
        = .ok (download_with_config
            ⟨pyUpper (pyStrip ticker), period, interval, aa, false⟩ fetch) := by
    intro he
    simp only [CandlestickDownloader.download, DownloadConfig.make]
    rw [if_neg he]
    rfl
  have herr : pyUpper (pyStrip ticker) = "" →
      CandlestickDownloader.download ticker period interval aa fetch
        = .error "Ticker symbol cannot be empty" := by
    intro he
    simp only [CandlestickDownloader.download, DownloadConfig.make]
    rw [if_pos he]
    rfl
  refine ⟨fun h => by rw [h]; rfl, ?_, hok⟩
  intro h
  by_cases he : pyUpper (pyStrip ticker) = ""
  · rw [herr he] at h
    injection h with hh
    exact ⟨hh.symm, he⟩
  · rw [hok he] at h
    simp at h

/-- C2: for a provider table (time index named `Date` or `Datetime`, as the
provider produces) of N rows of which M materialized rows contain a missing
value, normalization returns exactly N − M rows, sorted ascending by the
`Date` column (the leading column), with the index reindexed from 0. -/
theorem normalization_counts (raw : RawDF)
    (hwf : raw.indexVals.length = raw.rows.length)
    (hname : raw.indexName = "Date" ∨ raw.indexName = "Datetime") :
    ∃ df, process_dataframe raw = .ok df ∧
      df.rows.length
        = raw.rows.length - (raw.reset_index.rows.filter rowHasNaN).length ∧
      df.columns.head? = some "Date" ∧
      List.Pairwise
        (fun r1 r2 => cellLe (r1.getD 0 none) (r2.getD 0 none) = true)
        df.rows ∧
      df.index = List.range df.rows.length := by
  obtain ⟨rest, hcols⟩ := renamed_columns_head raw hname
  have hN : raw.reset_index.rows.length = raw.rows.length := by
    simp [RawDF.reset_index, hwf]
  have hNi : raw.reset_index.index.length = raw.rows.length := by
    simp [RawDF.reset_index]
  refine ⟨_, process_dataframe_eq raw rest hcols, ?_, rfl, ?_, rfl⟩
  · rw [List.length_map, List.length_insertionSort, List.length_zip]
    have hidx : (raw.reset_index.renameDatetime.dropna).index.length
        = (raw.reset_index.renameDatetime.dropna).rows.length := by
      simp [DataFrame.dropna]
    rw [hidx, Nat.min_self]
    have hrows : (raw.reset_index.renameDatetime.dropna).rows.length
        = ((raw.reset_index.renameDatetime.index.zip
            raw.reset_index.renameDatetime.rows).filter
              (fun p => !rowHasNaN p.2)).length := by
      simp [DataFrame.dropna]
    rw [hrows, ← List.countP_eq_length_filter,
      countP_zip_snd (fun r => !rowHasNaN r)
        raw.reset_index.renameDatetime.index
        raw.reset_index.renameDatetime.rows
        (by rw [renameDatetime_index, renameDatetime_rows, hNi, hN]),
      countP_not_rows, renameDatetime_rows, hN,
      List.countP_eq_length_filter]
  · rw [List.pairwise_map]
    exact List.sorted_insertionSort (rowLe 0) _

theorem normalization_counts_witness :
    process_dataframe sampleRaw = .ok sampleProcessed ∧
    sampleProcessed.rows.length = 2 ∧
    List.Pairwise
      (fun r1 r2 => cellLe (r1.getD 0 none) (r2.getD 0 none) = true)
      sampleProcessed.rows := by
  obtain ⟨df, h1, -, -, h3, -⟩ :=
    normalization_counts sampleRaw (by decide) (Or.inl rfl)
  have he : process_dataframe sampleRaw = .ok sampleProcessed := rfl
  rw [he] at h1
  injection h1 with hh
  rw [← hh] at h3
  exact ⟨he, by decide, h3⟩

/-- C5: saving an absent or zero-row table returns `False` with no file
written; an exception during directory creation or the write is caught and
converted to `False` (the Lean return type `Bool × Option PyPath` carries no
`Except`: `save_to_csv` never raises). -/
theorem save_fail_soft (self : CandlestickDownloader) (df : Option DataFrame)
    (filename : PyPath) (create_dir : Bool) (mk wr : Except String Unit)
    (e1 e2 : String) :
    ((df = none ∨ ∃ d, df = some d ∧ d.emptyDF = true) →
      self.save_to_csv df filename create_dir mk wr = (false, none)) ∧
    (create_dir = true → mk = .error e1 →
      self.save_to_csv df filename create_dir mk wr = (false, none)) ∧
    (wr = .error e2 →
      self.save_to_csv df filename create_dir mk wr = (false, none)) := by
  refine ⟨?_, ?_, ?_⟩
  · rintro (rfl | ⟨d, rfl, hd⟩)
    · rfl
    · simp [CandlestickDownloader.save_to_csv, hd]
  · rintro rfl rfl
    cases df with
    | none => rfl
    | some d =>
      by_cases hd : d.emptyDF <;>
        simp [CandlestickDownloader.save_to_csv, hd]
  · rintro rfl
    cases df with
    | none => rfl
    | some d =>
      by_cases hd : d.emptyDF
      · simp [CandlestickDownloader.save_to_csv, hd]
      · cases create_dir <;> cases mk <;>
          simp [CandlestickDownloader.save_to_csv, hd]

theorem save_fail_soft_witness :
    (CandlestickDownloader.mk PyPath.dot).save_to_csv none
        (pyPathOfString "a.csv") true (.ok ()) (.ok ()) = (false, none) ∧
    (CandlestickDownloader.mk PyPath.dot).save_to_csv (some sampleProcessed)
        (pyPathOfString "a.csv") true (.error "PermissionError") (.ok ())
      = (false, none) ∧
    (CandlestickDownloader.mk PyPath.dot).save_to_csv (some sampleProcessed)
        (pyPathOfString "a.csv") true (.ok ()) (.error "OSError")
      = (false, none) :=
  ⟨(save_fail_soft (CandlestickDownloader.mk PyPath.dot) none
      (pyPathOfString "a.csv") true (.ok ()) (.ok ()) "x" "y").1 (Or.inl rfl),
   (save_fail_soft (CandlestickDownloader.mk PyPath.dot) (some sampleProcessed)
      (pyPathOfString "a.csv") true (.error "PermissionError") (.ok ())
      "PermissionError" "y").2.1 rfl rfl,
   (save_fail_soft (CandlestickDownloader.mk PyPath.dot) (some sampleProcessed)
      (pyPathOfString "a.csv") true (.ok ()) (.error "OSError")
      "x" "OSError").2.2 rfl⟩

/-- C8: for a non-empty table, a filename whose parent is `Path('.')` (a bare
filename) is resolved under the default output directory; a filename with a
directory component is honored exactly. -/
theorem save_path_resolution (self : CandlestickDownloader) (df : DataFrame)
    (filename : PyPath) (create_dir : Bool) (hne : df.emptyDF = false) :
    (filename.parent = PyPath.dot →
      self.save_to_csv (some df) filename create_dir (.ok ()) (.ok ())
        = (true, some (self.default_output_dir.join filename))) ∧
    (filename.parent ≠ PyPath.dot →
      self.save_to_csv (some df) filename create_dir (.ok ()) (.ok ())
        = (true, some filename)) := by
  constructor
  · intro hp
    cases create_dir <;> simp [CandlestickDownloader.save_to_csv, hne, hp]
  · intro hp
    cases create_dir <;> simp [CandlestickDownloader.save_to_csv, hne, hp]

theorem save_path_resolution_witness :
    (CandlestickDownloader.mk (pyPathOfString "/out")).save_to_csv
        (some sampleProcessed) (pyPathOfString "a.csv") true (.ok ()) (.ok ())
      = (true, some (pyPathOfString "/out/a.csv")) ∧
    (CandlestickDownloader.mk (pyPathOfString "/out")).save_to_csv
        (some sampleProcessed) (pyPathOfString "data/a.csv") true (.ok ())
        (.ok ())
      = (true, some (pyPathOfString "data/a.csv")) := by
  constructor
  · have h := (save_path_resolution (CandlestickDownloader.mk
      (pyPathOfString "/out")) sampleProcessed (pyPathOfString "a.csv") true
      rfl).1 (by decide)
    rw [h]
    rfl
  · exact (save_path_resolution (CandlestickDownloader.mk
      (pyPathOfString "/out")) sampleProcessed (pyPathOfString "data/a.csv")
      true rfl).2 (by decide)

/-- C10: the constructor eagerly creates the default output directory (the
given path, or the current working directory when none is given), parents
included; an OS error from that `mkdir` propagates to the caller, since the
call sits outside any `try`. -/
theorem init_eager_mkdir (dir : Option PyPath) (cwd : PyPath) (fs : FS)
    (e : String) :
    CandlestickDownloader.init dir cwd (.error e) fs = .error e ∧
    CandlestickDownloader.init dir cwd (.ok ()) fs
      = .ok (⟨dir.getD cwd⟩, dirPrefixes (dir.getD cwd) ++ fs) ∧
    (∀ k, k + 1 ≤ (dir.getD cwd).comps.length →
      (⟨(dir.getD cwd).isAbs, (dir.getD cwd).comps.take (k + 1)⟩ : PyPath)
        ∈ dirPrefixes (dir.getD cwd) ++ fs) := by
  refine ⟨rfl, rfl, ?_⟩
  intro k hk
  apply List.mem_append_left
  simp only [dirPrefixes, List.mem_map, List.mem_range]
  exact ⟨k, by omega, rfl⟩

theorem init_eager_mkdir_witness :
    CandlestickDownloader.init (some (pyPathOfString "out/data")) PyPath.dot
        (.error "PermissionError") [] = .error "PermissionError" ∧
    CandlestickDownloader.init (some (pyPathOfString "out/data")) PyPath.dot
        (.ok ()) []
      = .ok (⟨⟨false, ["out", "data"]⟩⟩, [⟨false, ["out"]⟩, ⟨false, ["out", "data"]⟩]) ∧
    (⟨false, ["out"]⟩ : PyPath) ∈
      dirPrefixes (pyPathOfString "out/data") ++ ([] : FS) := by
  have h := init_eager_mkdir (some (pyPathOfString "out/data")) PyPath.dot []
    "PermissionError"
  refine ⟨h.1, ?_, ?_⟩
  · rw [h.2.1]
    rfl
  · have hm := h.2.2 0 (by decide)
    simpa using hm

/-- C6: an empty raw provider response yields the absent result (`none`),
not an empty table; a non-empty raw response whose rows are all removed by
NaN-dropping is returned as a valid zero-row table, not converted to
`none`. -/
theorem empty_vs_allnan (config : DownloadConfig) (raw : RawDF)
    (hwf : raw.indexVals.length = raw.rows.length)
    (hname : raw.indexName = "Date" ∨ raw.indexName = "Datetime") :
    (raw.empty = true → download_with_config config (.ok raw) = none) ∧
    (raw.empty = false →
      (∀ r ∈ raw.reset_index.rows, rowHasNaN r = true) →
      ∃ df, download_with_config config (.ok raw) = some df ∧ df.rows = []) := by
  constructor
  · intro he
    simp [download_with_config, he]
  · intro he hall
    obtain ⟨rest, hcols⟩ := renamed_columns_head raw hname
    have hproc := process_dataframe_eq raw rest hcols
    have hdropr : (raw.reset_index.renameDatetime.dropna).rows = [] := by
      have hfil : ((raw.reset_index.renameDatetime.index.zip
          raw.reset_index.renameDatetime.rows).filter
            (fun p => !rowHasNaN p.2)) = [] := by
        rw [List.filter_eq_nil_iff]
        intro a ha
        have hmem : a.2 ∈ raw.reset_index.renameDatetime.rows :=
          (List.of_mem_zip ha).2
        rw [renameDatetime_rows] at hmem
        simp [hall a.2 hmem]
      simp [DataFrame.dropna, hfil]
    have hz : ((raw.reset_index.renameDatetime.dropna).index.zip
        (raw.reset_index.renameDatetime.dropna).rows) = [] := by
      rw [hdropr]
      exact List.zip_nil_right
    rw [hz] at hproc
    have hproc2 : process_dataframe raw = .ok ⟨"Date" :: rest, [], []⟩ := hproc
    exact ⟨⟨"Date" :: rest, [], []⟩,
      by simp [download_with_config, he, hproc2], rfl⟩

theorem empty_vs_allnan_witness :
    download_with_config ⟨"AAPL", "1mo", "1d", true, false⟩ (.ok emptyRaw)
      = none ∧
    download_with_config ⟨"AAPL", "1mo", "1d", true, false⟩ (.ok allNaNRaw)
      = some ⟨["Date", "Open", "High", "Low", "Close", "Volume"], [], []⟩ := by
  constructor
  · exact (empty_vs_allnan ⟨"AAPL", "1mo", "1d", true, false⟩ emptyRaw
      (by decide) (Or.inl rfl)).1 rfl
  · obtain ⟨df, h1, h2⟩ := (empty_vs_allnan ⟨"AAPL", "1mo", "1d", true, false⟩
      allNaNRaw (by decide) (Or.inl rfl)).2 rfl (by decide)
    exact rfl

/-- C4 counterexample: a non-empty raw table whose materialized index column
is not named `Date` leaves the canonical `Date` column missing; the claim
says the operation still completes and returns a table, but the `sort_values`
step raises a `KeyError`, which the surrounding `try` absorbs — so the
download returns the absent result (`none`), not a table. -/
theorem missing_columns_counterexample :
    noDateRaw.empty = false ∧
    "Date" ∈ missingCols (noDateRaw.reset_index.renameDatetime) ∧
    download_with_config ⟨"AAPL", "1mo", "1d", true, false⟩ (.ok noDateRaw)
      = none := by
  refine ⟨rfl, ?_, rfl⟩
  decide

/-- C4 (amended): missing canonical columns other than `Date` only trigger a
logged warning — whenever a `Date` column is present after materialization
and renaming, the operation completes and returns a table, whatever other
canonical columns are missing.  But when the `Date` column itself is missing,
the sort raises, the exception is absorbed by the download wrapper, and the
operation returns the absent result instead of a table. -/
theorem missing_columns_amended (config : DownloadConfig) (raw : RawDF)
    (hne : raw.empty = false) :
    ("Date" ∈ (raw.reset_index.renameDatetime).columns →
      ∃ df, download_with_config config (.ok raw) = some df) ∧
    ("Date" ∉ (raw.reset_index.renameDatetime).columns →
      download_with_config config (.ok raw) = none) := by
  constructor
  · intro hmem
    have hfind : ∃ j, (raw.reset_index.renameDatetime.dropna).columns.findIdx?
        (fun c => c == "Date") = some j := by
      rw [dropna_columns]
      cases hf : (raw.reset_index.renameDatetime).columns.findIdx?
          (fun c => c == "Date") with
      | some j => exact ⟨j, rfl⟩
      | none =>
        rw [List.findIdx?_eq_none_iff] at hf
        have := hf "Date" hmem
        simp at this
    obtain ⟨j, hj⟩ := hfind
    have hsort : (raw.reset_index.renameDatetime.dropna).sort_values "Date"
        = .ok { columns := (raw.reset_index.renameDatetime.dropna).columns
              , index := (((raw.reset_index.renameDatetime.dropna).index.zip
                  (raw.reset_index.renameDatetime.dropna).rows).insertionSort
                    (rowLe j)).map (fun p => p.1)
              , rows := (((raw.reset_index.renameDatetime.dropna).index.zip
                  (raw.reset_index.renameDatetime.dropna).rows).insertionSort
                    (rowLe j)).map (fun p => p.2) } := by
      simp only [DataFrame.sort_values, hj]
    have hp : process_dataframe raw
        = .ok (DataFrame.reset_index_drop
            { columns := (raw.reset_index.renameDatetime.dropna).columns
            , index := (((raw.reset_index.renameDatetime.dropna).index.zip
                (raw.reset_index.renameDatetime.dropna).rows).insertionSort
                  (rowLe j)).map (fun p => p.1)
            , rows := (((raw.reset_index.renameDatetime.dropna).index.zip
                (raw.reset_index.renameDatetime.dropna).rows).insertionSort
                  (rowLe j)).map (fun p => p.2) }) := by
      simp only [process_dataframe, hsort]
      rfl
    exact ⟨DataFrame.reset_index_drop
        { columns := (raw.reset_index.renameDatetime.dropna).columns
        , index := (((raw.reset_index.renameDatetime.dropna).index.zip
            (raw.reset_index.renameDatetime.dropna).rows).insertionSort
              (rowLe j)).map (fun p => p.1)
        , rows := (((raw.reset_index.renameDatetime.dropna).index.zip
            (raw.reset_index.renameDatetime.dropna).rows).insertionSort
              (rowLe j)).map (fun p => p.2) },
      by simp [download_with_config, hne, hp]⟩
  · intro hmem
    have hf : (raw.reset_index.renameDatetime.dropna).columns.findIdx?
        (fun c => c == "Date") = none := by
      rw [dropna_columns, List.findIdx?_eq_none_iff]
      intro x hx
      simp only [beq_eq_false_iff_ne]
      rintro rfl
      exact hmem hx
    have hproc : process_dataframe raw = .error "KeyError" := by
      simp only [process_dataframe, DataFrame.sort_values, hf]
      rfl
    simp [download_with_config, hne, hproc]

theorem missing_columns_amended_witness :
    download_with_config ⟨"AAPL", "1mo", "1d", true, false⟩ (.ok sampleRaw)
      = some sampleProcessed ∧
    download_with_config ⟨"AAPL", "1mo", "1d", true, false⟩ (.ok noDateRaw)
      = none := by
  constructor
  · obtain ⟨df, hdf⟩ := (missing_columns_amended
      ⟨"AAPL", "1mo", "1d", true, false⟩ sampleRaw rfl).1 (by decide)
    exact rfl
  · exact (missing_columns_amended ⟨"AAPL", "1mo", "1d", true, false⟩
      noDateRaw rfl).2 (by decide)

/-- C7 counterexample: the auto-generated filename uses the ticker exactly as
supplied, not uppercased.  With ticker `"aapl"` the file written is
`aapl_1mo_1d_20240101_120000.csv`, which differs from the
`TICKER_period_interval_timestamp.csv` (uppercase-ticker) pattern the claim
asserts. -/
theorem auto_filename_counterexample :
    (CandlestickDownloader.mk PyPath.dot).download_and_save "aapl" none "1mo"
        "1d" true (.ok sampleRaw) "20240101_120000" (.ok ()) (.ok ())
      = .ok (true, some ⟨false, ["aapl_1mo_1d_20240101_120000.csv"]⟩) ∧
    "aapl_1mo_1d_20240101_120000.csv" ≠ "AAPL_1mo_1d_20240101_120000.csv" :=
  ⟨rfl, by decide⟩

/-- C7 (amended): for every call to `download_and_save` — with or without an
explicit filename — it short-circuits to `False` with no write attempted when
download yields the absent result, and it succeeds only when the underlying
download succeeded; when no filename is supplied it synthesizes
`{ticker}_{period}_{interval}_{timestamp}.csv` from the ticker exactly as
supplied by the caller (not uppercased) and saves under that name. -/
theorem download_and_save_contract (self : CandlestickDownloader)
    (ticker period interval timestamp : String) (filename : Option String)
    (aa : Bool) (fetch : Except String RawDF) (mk wr : Except String Unit) :
    (CandlestickDownloader.download ticker period interval aa fetch
        = .ok none →
      self.download_and_save ticker filename period interval aa fetch
        timestamp mk wr = .ok (false, none)) ∧
    (∀ df, CandlestickDownloader.download ticker period interval aa fetch
        = .ok (some df) →
      self.download_and_save ticker none period interval aa fetch timestamp
        mk wr
        = .ok (self.save_to_csv (some df)
            (pyPathOfString (ticker ++ "_" ++ period ++ "_" ++ interval ++ "_"
              ++ timestamp ++ ".csv")) true mk wr)) ∧
    (∀ b p, self.download_and_save ticker filename period interval aa fetch
        timestamp mk wr = .ok (b, p) → b = true →
      ∃ df, CandlestickDownloader.download ticker period interval aa fetch
        = .ok (some df)) := by
  refine ⟨?_, ?_, ?_⟩
  · intro h
    simp only [CandlestickDownloader.download_and_save, h]
  · intro df h
    simp only [CandlestickDownloader.download_and_save, h]
  · intro b p h hb
    subst hb
    simp only [CandlestickDownloader.download_and_save] at h
    cases hdl : CandlestickDownloader.download ticker period interval aa fetch with
    | error e =>
      rw [hdl] at h
      simp at h
    | ok o =>
      cases o with
      | none =>
        rw [hdl] at h
        simp at h
      | some df => exact ⟨df, rfl⟩

theorem download_and_save_contract_witness :
    (CandlestickDownloader.mk PyPath.dot).download_and_save "AAPL"
        (some "explicit.csv") "1mo" "1d" true (.ok emptyRaw) "20240101_120000"
        (.ok ()) (.ok ())
      = .ok (false, none) ∧
    (CandlestickDownloader.mk PyPath.dot).download_and_save "AAPL" none "1mo"
        "1d" true (.ok emptyRaw) "20240101_120000" (.ok ()) (.ok ())
      = .ok (false, none) :=
  ⟨(download_and_save_contract (CandlestickDownloader.mk PyPath.dot) "AAPL"
      "1mo" "1d" "20240101_120000" (some "explicit.csv") true (.ok emptyRaw)
      (.ok ()) (.ok ())).1 rfl,
   (download_and_save_contract (CandlestickDownloader.mk PyPath.dot) "AAPL"
      "1mo" "1d" "20240101_120000" none true (.ok emptyRaw)
      (.ok ()) (.ok ())).1 rfl⟩

/-- C9 counterexample: the legacy `download_candlestick_data` *does* pass
through the configuration-object validation layer — on a whitespace-only
ticker it raises the `DownloadConfig` validation error, because it constructs
a `CandlestickDownloader` and delegates to the class-based `download`.  This
refutes the claim that the legacy path is independent of the class-based path
and of its validation. -/
theorem legacy_independence_counterexample :
    download_candlestick_data "   " "1mo" "1d" PyPath.dot (.ok ()) []
        (.ok sampleRaw)
      = .error "Ticker symbol cannot be empty" ∧
    download_candlestick_data "   " "1mo" "1d" PyPath.dot (.ok ()) []
        (.ok sampleRaw)
      = CandlestickDownloader.download "   " "1mo" "1d" true (.ok sampleRaw) :=
  ⟨rfl, rfl⟩

/-- C9 (amended): the two legacy functions delegate to the class-based path —
each constructs a `CandlestickDownloader` and calls its method — hence they
share its implementation and its configuration-validation layer (their only
additional behavior is the constructor's eager `mkdir` of the current working
directory). -/
theorem legacy_delegates (ticker period interval : String) (cwd : PyPath)
    (fs : FS) (fetch : Except String RawDF) (df : Option DataFrame)
    (filename : String) (mk wr : Except String Unit) :
    download_candlestick_data ticker period interval cwd (.ok ()) fs fetch
      = CandlestickDownloader.download ticker period interval true fetch ∧
    save_to_csv df filename cwd (.ok ()) fs mk wr
      = .ok ((CandlestickDownloader.mk cwd).save_to_csv df
          (pyPathOfString filename) true mk wr) :=
  ⟨rfl, rfl⟩

theorem legacy_delegates_witness :
    download_candlestick_data "AAPL" "1mo" "1d" PyPath.dot (.ok ()) []
        (.ok sampleRaw)
      = CandlestickDownloader.download "AAPL" "1mo" "1d" true (.ok sampleRaw) :=
  (legacy_delegates "AAPL" "1mo" "1d" PyPath.dot [] (.ok sampleRaw) none
    "a.csv" (.ok ()) (.ok ())).1

theorem download_fail_soft_witness :
    download_with_config ⟨"AAPL", "1mo", "1d", true, false⟩ (.error "boom")
      = none ∧
    CandlestickDownloader.download "AAPL" "1mo" "1d" true (.error "boom")
      = .ok none :=
  ⟨(download_fail_soft "AAPL" "1mo" "1d" true ⟨"AAPL", "1mo", "1d", true, false⟩
      (.error "boom") "boom" "m").1 rfl,
   by
    have h := (download_fail_soft "AAPL" "1mo" "1d" true
      ⟨"AAPL", "1mo", "1d", true, false⟩ (.error "boom") "boom" "m").2.2
      (by decide)
    simpa using h⟩
